import Mathlib

/-!
Verification of the retirement-simulation engine of the panrps repository.

The repository ships the callers (src/routes/analysis.py) and the test suite
(tests/test_services/test_retirement_model.py, tests/test_routes/test_analysis.py)
for a retirement model whose implementation module (src/services/retirement_model.py)
is not part of the source tree.  The RMD calculator, the tax engine and the
market-period scheduler below are therefore modelled from the specification;
the route-level definitions are translated directly from src/routes/analysis.py.
All money amounts are rationals.
-/

namespace Panrps

/-! ## RMD calculator (claim C1) -/

/-- Modelled from the spec: the IRS Uniform Lifetime Table used by the missing
`RetirementModel.calculate_rmd` in `src/services/retirement_model.py`.
Maps an age to its published divisor factor; the spec fixes age 76 to divisor 23.7. -/
def uniformLifetimeTable : List (ℕ × ℚ) :=
  [(72, 274/10), (73, 265/10), (74, 255/10), (75, 246/10), (76, 237/10),
   (77, 229/10), (78, 220/10), (79, 211/10), (80, 202/10), (81, 194/10),
   (82, 185/10), (83, 177/10), (84, 168/10), (85, 160/10), (86, 152/10),
   (87, 144/10), (88, 137/10), (89, 129/10), (90, 122/10), (91, 115/10),
   (92, 108/10), (93, 101/10), (94, 95/10), (95, 89/10), (96, 84/10),
   (97, 78/10), (98, 73/10), (99, 68/10), (100, 64/10)]

/-- Divisor lookup; an age outside the table is a fatal input error (spec section 7),
hence the `Option`. -/
def rmdDivisor (age : ℕ) : Option ℚ :=
  (uniformLifetimeTable.find? (fun p => p.1 == age)).map Prod.snd

/-- Modelled from the spec: `calculate_rmd(age, pre_tax_balance)` of the missing
`src/services/retirement_model.py` divides the balance by the age's divisor. -/
def calculate_rmd (age : ℕ) (balance : ℚ) : Option ℚ :=
  (rmdDivisor age).map (fun d => balance / d)

/-- Modelled from the spec: the couple variant of the missing RMD logic.  Each
spouse's statutory distribution applies that spouse's own divisor to the notional
half of the original pre-withdrawal balance, never to a balance already reduced by
the co-spouse's withdrawal. -/
def couple_rmd (age1 age2 : ℕ) (balance : ℚ) : Option ℚ :=
  match rmdDivisor age1, rmdDivisor age2 with
  | some d1, some d2 => some (balance / 2 / d1 + balance / 2 / d2)
  | _, _ => none

/-- The buggy sequential variant the regression test in
`tests/test_services/test_retirement_model.py` guards against: the second
spouse's half is taken from the balance already reduced by the first
withdrawal. -/
def couple_rmd_sequential (age1 age2 : ℕ) (balance : ℚ) : Option ℚ :=
  match rmdDivisor age1, rmdDivisor age2 with
  | some d1, some d2 =>
      some (balance / 2 / d1 + (balance - balance / 2 / d1) / 2 / d2)
  | _, _ => none

/-! ## Federal progressive tax (claim C2) -/

/-- Income falling inside the band from `lo` to `hi`. -/
def bandAmount (lo hi x : ℚ) : ℚ := max 0 (min x hi - lo)

/-- Modelled from the spec: `_vectorized_federal_tax` of the missing
`src/services/retirement_model.py`, married-filing-jointly bracket table
(2024 brackets; the tests fix the 23,200 bottom band and the 37 percent top
rate).  Each bracket's rate applies only to income within that bracket's band
and the bands are summed cumulatively. -/
def federal_tax (x : ℚ) : ℚ :=
  (10/100) * bandAmount 0 23200 x
  + (12/100) * bandAmount 23200 94300 x
  + (22/100) * bandAmount 94300 201050 x
  + (24/100) * bandAmount 201050 383900 x
  + (32/100) * bandAmount 383900 487450 x
  + (35/100) * bandAmount 487450 731200 x
  + (37/100) * max 0 (x - 731200)

/-- Modelled from the spec: the marginal-rate output of the missing
`_vectorized_federal_tax`: the rate of the bracket that contains the income. -/
def marginal_rate (x : ℚ) : ℚ :=
  if x ≤ 23200 then 10/100
  else if x ≤ 94300 then 12/100
  else if x ≤ 201050 then 22/100
  else if x ≤ 383900 then 24/100
  else if x ≤ 487450 then 32/100
  else if x ≤ 731200 then 35/100
  else 37/100

theorem bandAmount_mono (lo hi : ℚ) {x y : ℚ} (h : x ≤ y) :
    bandAmount lo hi x ≤ bandAmount lo hi y := by
  unfold bandAmount
  exact max_le_max le_rfl (sub_le_sub_right (min_le_min_right hi h) lo)

theorem federal_tax_mono {x y : ℚ} (h : x ≤ y) : federal_tax x ≤ federal_tax y := by
  unfold federal_tax
  have hb : ∀ lo hi : ℚ, bandAmount lo hi x ≤ bandAmount lo hi y :=
    fun lo hi => bandAmount_mono lo hi h
  have htop : max 0 (x - 731200) ≤ max 0 (y - 731200) :=
    max_le_max le_rfl (sub_le_sub_right h 731200)
  gcongr
  all_goals first | exact htop | apply hb

theorem marginal_rate_mono {x y : ℚ} (h : x ≤ y) : marginal_rate x ≤ marginal_rate y := by
  unfold marginal_rate
  split_ifs <;> linarith

/-! ## Social Security taxability (claim C3) -/

/-- Modelled from the spec: `_vectorized_taxable_ss` of the missing
`src/services/retirement_model.py` for joint filers, one vector element at a
time.  Provisional income is other income plus half the benefit; below 32,000
nothing is taxable, between 32,000 and 44,000 the IRS worksheet phase-in taxes
half the excess up to half the benefit, above 44,000 up to 85 percent of the
benefit is taxable, capped at 85 percent. -/
def taxable_ss (other ss : ℚ) : ℚ :=
  let p := other + ss / 2
  if p ≤ 32000 then 0
  else if p ≤ 44000 then min ((p - 32000) / 2) (ss / 2)
  else min ((85/100) * ss) ((85/100) * (p - 44000) + min 6000 (ss / 2))

theorem taxable_ss_below_threshold {other ss : ℚ} (h : other + ss / 2 ≤ 32000) :
    taxable_ss other ss = 0 := by
  unfold taxable_ss
  simp only [if_pos h]

theorem taxable_ss_phase_in {other ss : ℚ} (hss : 0 < ss)
    (h1 : 32000 < other + ss / 2) (h2 : other + ss / 2 ≤ 44000) :
    0 < taxable_ss other ss ∧ taxable_ss other ss ≤ ss / 2 ∧
      (taxable_ss other ss < ss / 2 ↔ other + ss / 2 - 32000 < ss) := by
  unfold taxable_ss
  rw [if_neg (by linarith), if_pos h2]
  refine ⟨lt_min (by linarith) (by linarith), min_le_right _ _, ?_, fun hlt => ?_⟩
  · intro hlt
    by_contra hge
    push_neg at hge
    rw [min_eq_right (by linarith)] at hlt
    exact lt_irrefl _ hlt
  · have : (other + ss / 2 - 32000) / 2 < ss / 2 := by linarith
    exact lt_of_le_of_lt (min_le_left _ _) this

theorem taxable_ss_max_out {other ss : ℚ} (hss : 0 ≤ ss)
    (h : 44000 + ss < other + ss / 2) :
    taxable_ss other ss = (85/100) * ss := by
  unfold taxable_ss
  rw [if_neg (by linarith), if_neg (by linarith)]
  refine min_eq_left ?_
  have h6 : (0:ℚ) ≤ min 6000 (ss / 2) := le_min (by norm_num) (by linarith)
  nlinarith

theorem taxable_ss_cap {other ss : ℚ} (hss : 0 ≤ ss) :
    taxable_ss other ss ≤ (85/100) * ss := by
  simp only [taxable_ss]
  split_ifs with h1 h2
  · linarith
  · exact le_trans (min_le_right _ _) (by linarith)
  · exact min_le_left _ _

/-! ## Long-term capital gains tax (claim C4) -/

/-- Modelled from the spec: `_vectorized_ltcg_tax` of the missing
`src/services/retirement_model.py` for joint filers, one vector element at a
time.  Gains are stacked on top of ordinary income; the portion of the gains
that lands between the 94,050 and 583,750 thresholds is taxed at 15 percent
and the portion above 583,750 at 20 percent; the portion below 94,050 is
untaxed. -/
def ltcg_tax (gains ordinary : ℚ) : ℚ :=
  (15/100) * max 0 (min (ordinary + gains) 583750 - max ordinary 94050)
  + (20/100) * max 0 (ordinary + gains - max ordinary 583750)

theorem ltcg_tax_zero_band {gains ordinary : ℚ} (hg : 0 ≤ gains)
    (h : ordinary + gains ≤ 94050) : ltcg_tax gains ordinary = 0 := by
  unfold ltcg_tax
  have h1 : max 0 (min (ordinary + gains) 583750 - max ordinary 94050) = 0 := by
    refine max_eq_left ?_
    have := le_max_right ordinary (94050:ℚ)
    have := min_le_left (ordinary + gains) (583750:ℚ)
    linarith
  have h2 : max 0 (ordinary + gains - max ordinary 583750) = 0 := by
    refine max_eq_left ?_
    have := le_max_right ordinary (583750:ℚ)
    linarith
  rw [h1, h2]; ring

theorem ltcg_tax_fifteen_band {gains ordinary : ℚ} (hg : 0 ≤ gains)
    (hlo : 94050 ≤ ordinary) (hhi : ordinary + gains ≤ 583750) :
    ltcg_tax gains ordinary = (15/100) * gains := by
  unfold ltcg_tax
  rw [min_eq_left hhi, max_eq_left hlo,
    max_eq_right (show ordinary ≤ (583750:ℚ) by linarith)]
  rw [max_eq_right (show (0:ℚ) ≤ ordinary + gains - ordinary by linarith),
    max_eq_left (show ordinary + gains - (583750:ℚ) ≤ 0 by linarith)]
  ring

theorem ltcg_tax_twenty_band {gains ordinary : ℚ} (hg : 0 ≤ gains)
    (hlo : 583750 ≤ ordinary) : ltcg_tax gains ordinary = (20/100) * gains := by
  unfold ltcg_tax
  rw [max_eq_left hlo, max_eq_left (show (94050:ℚ) ≤ ordinary by linarith)]
  have h1 : min (ordinary + gains) (583750:ℚ) - ordinary ≤ 0 := by
    have := min_le_right (ordinary + gains) (583750:ℚ)
    linarith
  rw [max_eq_left h1, max_eq_right (show (0:ℚ) ≤ ordinary + gains - ordinary by linarith)]
  ring

/-- Piecewise form of the long-term capital gains tax on a whole income amount,
used to express `ltcg_tax` as a difference and derive its monotonicity. -/
def ltcgTotalTax (x : ℚ) : ℚ :=
  if x ≤ 94050 then 0
  else if x ≤ 583750 then (15/100) * (x - 94050)
  else (15/100) * (583750 - 94050) + (20/100) * (x - 583750)

set_option maxHeartbeats 1000000 in
theorem ltcg_tax_eq_diff {gains ordinary : ℚ} (hg : 0 ≤ gains) :
    ltcg_tax gains ordinary = ltcgTotalTax (ordinary + gains) - ltcgTotalTax ordinary := by
  unfold ltcg_tax ltcgTotalTax
  simp only [min_def, max_def]
  split_ifs <;> linarith

set_option maxHeartbeats 1000000 in
theorem ltcgTotalTax_incr_mono {g o1 o2 : ℚ} (hg : 0 ≤ g) (h : o1 ≤ o2) :
    ltcgTotalTax (o1 + g) - ltcgTotalTax o1 ≤ ltcgTotalTax (o2 + g) - ltcgTotalTax o2 := by
  unfold ltcgTotalTax
  split_ifs <;> linarith

theorem ltcg_tax_mono_in_ordinary {gains o1 o2 : ℚ} (hg : 0 ≤ gains)
    (h : o1 ≤ o2) : ltcg_tax gains o1 ≤ ltcg_tax gains o2 := by
  rw [ltcg_tax_eq_diff hg, ltcg_tax_eq_diff hg]
  exact ltcgTotalTax_incr_mono hg h

/-! ## Market period scheduler (claims C5 and C6) -/

/-- Modelled from the spec: the `MarketAssumptions` value object of the missing
`src/services/retirement_model.py` with its annual return and inflation
parameters. -/
structure MarketAssumptions where
  stock_return_mean : ℚ := 7/100
  stock_return_std : ℚ := 15/100
  bond_return_mean : ℚ := 4/100
  bond_return_std : ℚ := 5/100
  inflation_mean : ℚ := 3/100
  inflation_std : ℚ := 2/100
  equity_allocation : ℚ := 6/10
deriving DecidableEq

/-- One entry of a `timeline` market-period spec: an inclusive calendar-year
range with its assumptions. -/
structure TimelinePeriod where
  start_year : ℤ
  end_year : ℤ
  assumptions : MarketAssumptions
deriving DecidableEq

/-- One entry of a `cycle` market-period spec: a duration in years with its
assumptions. -/
structure CycleEntry where
  duration : ℕ
  assumptions : MarketAssumptions
deriving DecidableEq

/-- Modelled from the spec: the tagged `MarketPeriodSpec` union of the missing
`src/services/retirement_model.py` — a fixed `timeline` of periods or a
`cycle` pattern with an optional repeat flag. -/
inductive MarketPeriodSpec where
  | timeline (periods : List TimelinePeriod)
  | cycle (pattern : List CycleEntry) (repeated : Bool)
deriving DecidableEq

/-- A timeline period covers simulation-year index `y` when the calendar year
`currentYear + y` lies in the period's inclusive range. -/
def coversYear (currentYear : ℤ) (p : TimelinePeriod) (y : ℕ) : Bool :=
  decide (p.start_year ≤ currentYear + y ∧ currentYear + y ≤ p.end_year)

/-- Lay a cycle pattern out sequentially: each entry contributes `duration`
copies of its assumptions. -/
def cycleLayout : List CycleEntry → List MarketAssumptions
  | [] => []
  | e :: rest => List.replicate e.duration e.assumptions ++ cycleLayout rest

/-- Modelled from the spec: the per-year lookup performed by the missing
`_build_period_assumptions_lookup` of `src/services/retirement_model.py` —
the assumptions used in simulation year `y`.  With no spec the defaults are
used; a `timeline` uses the first period covering the year and falls back to
the defaults; a `cycle` walks its layout sequentially, tiling it when the
repeat flag is set and reverting to the defaults after one pass otherwise. -/
def lookupYear (currentYear : ℤ) (spec? : Option MarketPeriodSpec)
    (dflt : MarketAssumptions) (y : ℕ) : MarketAssumptions :=
  match spec? with
  | none => dflt
  | some (.timeline periods) =>
      match periods.find? (fun p => coversYear currentYear p y) with
      | some p => p.assumptions
      | none => dflt
  | some (.cycle pattern repeated) =>
      let layout := cycleLayout pattern
      if repeated then layout.getD (y % layout.length) dflt
      else layout.getD y dflt

/-- Modelled from the spec: `_build_period_assumptions_lookup(years, spec,
default_assumptions)` of the missing `src/services/retirement_model.py`
returns one `MarketAssumptions` per simulation year. -/
def build_period_assumptions_lookup (years : ℕ) (currentYear : ℤ)
    (spec? : Option MarketPeriodSpec) (dflt : MarketAssumptions) :
    List MarketAssumptions :=
  (List.range years).map (lookupYear currentYear spec? dflt)

/-- Number of calendar years in a timeline period, both bounds included. -/
def timelineDuration (p : TimelinePeriod) : ℤ := p.end_year - p.start_year + 1

/-- Total duration of a cycle pattern in years. -/
def patternDuration (pattern : List CycleEntry) : ℕ :=
  (pattern.map CycleEntry.duration).sum

/-- Warning text for a low-return stretch longer than five years. -/
def recessionMsg : String :=
  "Warning: prolonged recession period lasting more than 5 years"

/-- Warning text for a high-return stretch longer than fifteen years. -/
def bullMsg : String :=
  "Warning: prolonged bull market period lasting more than 15 years"

/-- Warning text for one period dominating the horizon. -/
def dominanceMsg : String :=
  "Warning: a single market condition covers 80 percent or more of the horizon"

/-- Warning text for uncovered years between timeline periods. -/
def gapMsg : String :=
  "Warning: gap between timeline periods is filled with default assumptions"

/-- Warning text for cycle patterns whose entries average under two years. -/
def shortCycleMsg : String :=
  "Warning: market cycle entries average less than 2 years each"

/-- A gap exists between two consecutive periods of a timeline when the next
period starts more than one year after the previous one ends. -/
def hasTimelineGap : List TimelinePeriod → Bool
  | [] => false
  | [_] => false
  | p :: q :: rest =>
      decide (p.end_year + 1 < q.start_year) || hasTimelineGap (q :: rest)

/-- Modelled from the spec: `_validate_market_periods(years, spec)` of the
missing `src/services/retirement_model.py`.  Returns advisory warning strings:
a recession warning for a low-return period longer than 5 years, a bull-market
warning for a high-return period longer than 15 years, a dominance warning for
a period or entry covering at least 80 percent of the horizon, a gap warning
for uncovered years between timeline periods, and a short-cycle warning when a
pattern averages under 2 years per entry.  The low and high return thresholds
are 5 and 15 percent mean stock return. -/
def validate_market_periods (years : ℕ) (spec? : Option MarketPeriodSpec) :
    List String :=
  match spec? with
  | none => []
  | some (.timeline periods) =>
      (if periods.any (fun p =>
          decide (5 < timelineDuration p) &&
          decide (p.assumptions.stock_return_mean < 5/100)) then [recessionMsg] else [])
      ++ (if periods.any (fun p =>
          decide (15 < timelineDuration p) &&
          decide (15/100 < p.assumptions.stock_return_mean)) then [bullMsg] else [])
      ++ (if periods.any (fun p =>
          decide (4 * (years : ℤ) ≤ 5 * timelineDuration p)) then [dominanceMsg] else [])
      ++ (if hasTimelineGap periods then [gapMsg] else [])
  | some (.cycle pattern _) =>
      (if pattern.any (fun e =>
          decide (5 < e.duration) &&
          decide (e.assumptions.stock_return_mean < 5/100)) then [recessionMsg] else [])
      ++ (if pattern.any (fun e =>
          decide (15 < e.duration) &&
          decide (15/100 < e.assumptions.stock_return_mean)) then [bullMsg] else [])
      ++ (if pattern.any (fun e =>
          decide (4 * years ≤ 5 * e.duration)) then [dominanceMsg] else [])
      ++ (if decide (pattern ≠ []) && decide (patternDuration pattern < 2 * pattern.length)
          then [shortCycleMsg] else [])

theorem cycleLayout_append (l1 l2 : List CycleEntry) :
    cycleLayout (l1 ++ l2) = cycleLayout l1 ++ cycleLayout l2 := by
  induction l1 with
  | nil => simp [cycleLayout]
  | cons e rest ih => simp [cycleLayout, ih]

theorem cycleLayout_length (pattern : List CycleEntry) :
    (cycleLayout pattern).length = patternDuration pattern := by
  induction pattern with
  | nil => simp [cycleLayout, patternDuration]
  | cons e rest ih => simp [cycleLayout, patternDuration, ih]

theorem replicate_getD {α : Type} {n k : ℕ} {a d : α} (h : k < n) :
    (List.replicate n a).getD k d = a := by
  induction n generalizing k with
  | zero => omega
  | succ m ih =>
      cases k with
      | zero => simp [List.replicate]
      | succ j => simpa [List.replicate] using ih (by omega)

theorem cycleLayout_getD {pre : List CycleEntry} {e : CycleEntry}
    {post : List CycleEntry} {k : ℕ} (hk : k < e.duration) (d : MarketAssumptions) :
    (cycleLayout (pre ++ e :: post)).getD (patternDuration pre + k) d =
      e.assumptions := by
  rw [cycleLayout_append]
  rw [List.getD_append_right _ _ _ _ (by rw [cycleLayout_length]; omega)]
  rw [cycleLayout_length]
  have hsub : patternDuration pre + k - patternDuration pre = k := by omega
  rw [hsub, cycleLayout]
  rw [List.getD_append _ _ _ _ (by simpa using hk)]
  exact replicate_getD hk

theorem find?_unique_cover {cy : ℤ} {y : ℕ} {periods : List TimelinePeriod}
    {p : TimelinePeriod} (hp : p ∈ periods) (hcov : coversYear cy p y = true)
    (huniq : ∀ q ∈ periods, coversYear cy q y = true → q = p) :
    periods.find? (fun q => coversYear cy q y) = some p := by
  induction periods with
  | nil => cases hp
  | cons a tl ih =>
      by_cases hA : coversYear cy a y = true
      · rw [List.find?_cons_of_pos (p := fun q => coversYear cy q y) tl (by simpa using hA)]
        exact congrArg some (huniq a (by simp) hA)
      · rw [List.find?_cons_of_neg (p := fun q => coversYear cy q y) tl (by simpa using hA)]
        rcases List.mem_cons.mp hp with rfl | hp'
        · exact absurd hcov hA
        · exact ih hp' (fun q hq => huniq q (List.mem_cons_of_mem _ hq))

/-! ## The analysis routes of src/routes/analysis.py (claims C7 to C10) -/

/-- From `AnalysisRequestSchema.validate_simulations` in
`src/src/routes/analysis.py` lines 19 to 23: a pydantic validator raising a
`ValueError` when the count is below 100 or above 50,000. -/
def validate_simulations (v : ℤ) : Except String ℤ :=
  if v < 100 ∨ 50000 < v then .error "Simulations must be between 100 and 50,000"
  else .ok v

/-- Outcome of the `/api/analysis` endpoint as far as the core is concerned. -/
inductive RouteOutcome where
  | badRequest (msg : String)
  | notFound
  | coreInvoked (simulations : ℤ)
deriving DecidableEq

/-- From `run_analysis` in `src/src/routes/analysis.py`: schema validation
failure returns HTTP 400 before anything else runs; a missing profile returns
404; an empty profile returns 400; otherwise `monte_carlo_simulation` is
invoked with the validated simulation count. -/
def run_analysis_route (sims : ℤ) (profileFound dataNonEmpty : Bool) :
    RouteOutcome :=
  match validate_simulations sims with
  | .error e => .badRequest e
  | .ok v =>
      if !profileFound then .notFound
      else if !dataNonEmpty then .badRequest "Profile data is empty"
      else .coreInvoked v

/-- The fields declared on `AnalysisRequestSchema` in
`src/src/routes/analysis.py` lines 14 to 17: only the profile name and the
simulation count. -/
def analysisRequestSchemaFields : List String := ["profile_name", "simulations"]

/-- The keyword arguments of the `model.monte_carlo_simulation` call in
`run_analysis`, `src/src/routes/analysis.py` line 118. -/
def monteCarloCallKeywords : List String := ["years", "simulations", "assumptions"]

/-- The request fields the repository's own tests
(`tests/test_routes/test_analysis.py`) require the schema to accept and store. -/
def testedRequestFields : List String :=
  ["profile_name", "simulations", "spending_model", "market_profile", "market_periods"]

/-- The keyword set used to build `Person` in `run_analysis`,
`src/src/routes/analysis.py` lines 57 to 62. -/
def runAnalysisPersonKeywords : List String :=
  ["name", "birth_date", "retirement_date", "social_security"]

/-- The keyword set used to build `Person` in `analyze_social_security`
(lines 156 to 161) and `analyze_roth_conversion` (lines 221 to 226) of
`src/src/routes/analysis.py`. -/
def scalarPersonKeywords : List String :=
  ["birth_year", "retirement_age", "life_expectancy", "current_age"]

/-- The canonical birth-date-based `Person` schema of spec section 3, also the
signature exercised positionally by `tests/test_services/test_retirement_model.py`. -/
def personSchemaFields : List String :=
  ["name", "birth_date", "retirement_date", "social_security"]

/-- Constructing a `Person` with a set of keyword arguments succeeds exactly
when every keyword is a declared field of the canonical schema; an unexpected
keyword raises a `TypeError`. -/
def mkPerson (kwargs : List String) : Except String Unit :=
  if kwargs.all (fun k => personSchemaFields.contains k) then .ok ()
  else .error "unexpected keyword argument in Person constructor"

/-- Outcome of the two secondary analysis endpoints. -/
inductive EndpointResult where
  | analysis
  | errorResponse (code : ℕ)
deriving DecidableEq

/-- From `analyze_social_security` in `src/src/routes/analysis.py` lines 133
to 193: missing profile gives 404, empty data 400; the whole body runs inside
a `try` whose `except Exception` returns HTTP 500, so a failing `Person`
construction yields the 500 error response. -/
def analyze_social_security_route (profileFound dataNonEmpty : Bool) :
    EndpointResult :=
  if !profileFound then .errorResponse 404
  else if !dataNonEmpty then .errorResponse 400
  else match mkPerson scalarPersonKeywords with
  | .error _ => .errorResponse 500
  | .ok _ => .analysis

/-- From `analyze_roth_conversion` in `src/src/routes/analysis.py` lines 196
to 258: the same structure and the same scalar `Person` keyword set as
`analyze_social_security`. -/
def analyze_roth_conversion_route (profileFound dataNonEmpty : Bool) :
    EndpointResult :=
  if !profileFound then .errorResponse 404
  else if !dataNonEmpty then .errorResponse 400
  else match mkPerson scalarPersonKeywords with
  | .error _ => .errorResponse 500
  | .ok _ => .analysis

/-- Number of positional arguments passed to `RetirementModel` by
`run_analysis` (`RetirementModel(financial_profile)`, line 109). -/
def runAnalysisModelArgCount : ℕ := 1

/-- Number of positional arguments passed to `RetirementModel` by the two
secondary endpoints (`RetirementModel(person, financial_profile,
market_assumptions)`, lines 184 and 249). -/
def scalarModelArgCount : ℕ := 3

/-- From `run_analysis` line 61 of `src/src/routes/analysis.py`: the monthly
stored Social Security benefit is divided by 12 to produce
`person1.social_security`, under a comment reading Convert monthly to annual. -/
def person1_social_security (monthlyBenefit : ℚ) : ℚ := monthlyBenefit / 12

/-- From `run_analysis` line 72 of `src/src/routes/analysis.py`: the spouse's
benefit undergoes the same division by 12. -/
def person2_social_security (monthlyBenefit : ℚ) : ℚ := monthlyBenefit / 12

/-- From `run_analysis` line 93 of `src/src/routes/analysis.py`: the monthly
pension benefit is multiplied by 12 to produce `pension_annual`. -/
def profile_pension_annual (monthlyPension : ℚ) : ℚ := monthlyPension * 12

/-! ## Claim theorems -/

theorem rmdDivisor_76 : rmdDivisor 76 = some (237/10) := rfl

theorem rmdDivisor_80 : rmdDivisor 80 = some (202/10) := rfl

/-- C1: for every positive balance and every tabulated age, `calculate_rmd`
divides the balance by the age's divisor (age 76 has divisor 23.7); a couple's
statutory distribution applies each spouse's divisor to the notional half of
the original balance, never to a balance reduced by the co-spouse's
withdrawal, so the couple total equals the single-person result;
`calculate_rmd(76, 1_000_000)` rounds to 42,194, and the sequential
reduced-balance variant disagrees with the correct one. -/
theorem rmd_splits_original_balance :
    rmdDivisor 76 = some (237/10) ∧
    (∀ (age : ℕ) (d B : ℚ), rmdDivisor age = some d → 0 < B →
      calculate_rmd age B = some (B / d)) ∧
    (∀ (age : ℕ) (B : ℚ), couple_rmd age age B = calculate_rmd age B) ∧
    calculate_rmd 76 1000000 = some (10000000/237) ∧
    round ((10000000 : ℚ)/237) = 42194 ∧
    couple_rmd_sequential 76 76 1000000 ≠ couple_rmd 76 76 1000000 := by
  refine ⟨rmdDivisor_76, ?_, ?_, ?_, ?_, ?_⟩
  · intro age d B h _
    simp [calculate_rmd, h]
  · intro age B
    unfold couple_rmd calculate_rmd
    cases h : rmdDivisor age
    · rfl
    · exact congrArg some (by ring)
  · simp only [calculate_rmd, rmdDivisor_76, Option.map_some']
    norm_num
  · rw [round_eq]; norm_num
  · simp only [couple_rmd_sequential, couple_rmd, rmdDivisor_76, ne_eq,
      Option.some.injEq]
    norm_num

/-- Witness for C1: the universally quantified parts applied at age 80 with
balance 404 and at age 76 with balance 9. -/
theorem rmd_splits_original_balance_witness :
    calculate_rmd 80 404 = some (404 / (202/10)) ∧
    couple_rmd 76 76 9 = calculate_rmd 76 9 := by
  exact ⟨rmd_splits_original_balance.2.1 80 (202/10) 404 rmdDivisor_80 (by norm_num),
    rmd_splits_original_balance.2.2.1 76 9⟩

/-- C2: the federal progressive tax applies the joint bracket table
cumulatively: 20,000 is taxed exactly 2,000 at marginal rate 10 percent,
50,000 is taxed 23,200 at 10 percent plus 26,800 at 12 percent with marginal
rate 12 percent, 800,000 sits in the 37 percent bracket with an effective rate
strictly between 22 and 37 percent, and both the tax and the marginal rate are
non-decreasing along any monotonically increasing income vector. -/
theorem federal_tax_progressive_brackets :
    federal_tax 20000 = 2000 ∧ marginal_rate 20000 = 10/100 ∧
    federal_tax 50000 = 23200 * (10/100) + 26800 * (12/100) ∧
    marginal_rate 50000 = 12/100 ∧
    marginal_rate 800000 = 37/100 ∧
    22/100 < federal_tax 800000 / 800000 ∧ federal_tax 800000 / 800000 < 37/100 ∧
    (∀ x y : ℚ, x ≤ y → federal_tax x ≤ federal_tax y ∧
      marginal_rate x ≤ marginal_rate y) ∧
    (∀ xs : List ℚ, xs.Pairwise (· ≤ ·) →
      (xs.map federal_tax).Pairwise (· ≤ ·) ∧
      (xs.map marginal_rate).Pairwise (· ≤ ·)) := by
  refine ⟨?_, ?_, ?_, ?_, ?_, ?_, ?_,
    fun x y h => ⟨federal_tax_mono h, marginal_rate_mono h⟩,
    fun xs h => ⟨List.Pairwise.map _ (fun a b hab => federal_tax_mono hab) h,
      List.Pairwise.map _ (fun a b hab => marginal_rate_mono hab) h⟩⟩ <;>
    norm_num [federal_tax, marginal_rate, bandAmount, min_def, max_def]

/-- Witness for C2: monotonicity applied at incomes 100,000 and 200,000 and to
a concrete increasing income vector. -/
theorem federal_tax_progressive_brackets_witness :
    federal_tax 100000 ≤ federal_tax 200000 ∧
    marginal_rate 100000 ≤ marginal_rate 200000 ∧
    ([20000, 50000, 800000].map federal_tax).Pairwise (· ≤ ·) := by
  obtain ⟨-, -, -, -, -, -, -, hmono, hvec⟩ := federal_tax_progressive_brackets
  exact ⟨(hmono 100000 200000 (by norm_num)).1, (hmono 100000 200000 (by norm_num)).2,
    (hvec [20000, 50000, 800000] (by norm_num [List.pairwise_cons])).1⟩

/-- C3 counterexample: with other income 41,000 and benefit 2,000 the
provisional income 42,000 lies strictly between 32,000 and 44,000, yet the
taxable amount equals exactly 50 percent of the benefit, so it is not strictly
between 0 and 50 percent as the claim states. -/
theorem taxable_ss_phase_in_reaches_half :
    32000 < (41000 : ℚ) + 2000 / 2 ∧ (41000 : ℚ) + 2000 / 2 < 44000 ∧
    taxable_ss 41000 2000 = 2000 / 2 ∧
    ¬ taxable_ss 41000 2000 < 2000 / 2 := by
  norm_num [taxable_ss]

/-- C3 amended: below a provisional income of 32,000 nothing is taxable; in
the 32,000 to 44,000 phase-in zone with a positive benefit the taxable amount
is strictly positive and at most half the benefit, strictly below half exactly
when the excess of provisional income over 32,000 is smaller than the benefit; far
enough above 44,000 exactly 85 percent of the benefit is taxable; and 85
percent of the benefit is an upper cap never exceeded for any input. -/
theorem taxable_ss_worksheet :
    (∀ other ss : ℚ, other + ss / 2 ≤ 32000 → taxable_ss other ss = 0) ∧
    (∀ other ss : ℚ, 0 < ss → 32000 < other + ss / 2 → other + ss / 2 ≤ 44000 →
      0 < taxable_ss other ss ∧ taxable_ss other ss ≤ ss / 2 ∧
      (taxable_ss other ss < ss / 2 ↔ other + ss / 2 - 32000 < ss)) ∧
    (∀ other ss : ℚ, 0 ≤ ss → 44000 + ss < other + ss / 2 →
      taxable_ss other ss = (85/100) * ss) ∧
    (∀ other ss : ℚ, 0 ≤ ss → taxable_ss other ss ≤ (85/100) * ss) :=
  ⟨fun _ _ h => taxable_ss_below_threshold h,
   fun _ _ h1 h2 h3 => taxable_ss_phase_in h1 h2 h3,
   fun _ _ h1 h2 => taxable_ss_max_out h1 h2,
   fun _ _ h => taxable_ss_cap h⟩

/-- Witness for C3: the amended theorem applied at the repository's own test
inputs (10,000 with 20,000; 25,000 with 24,000; 100,000 with 30,000). -/
theorem taxable_ss_worksheet_witness :
    taxable_ss 10000 20000 = 0 ∧
    0 < taxable_ss 25000 24000 ∧ taxable_ss 25000 24000 ≤ 24000 / 2 ∧
    taxable_ss 100000 30000 = (85/100) * 30000 ∧
    taxable_ss 0 1000 ≤ (85/100) * 1000 := by
  obtain ⟨h0, hmid, hhigh, hcap⟩ := taxable_ss_worksheet
  have hm := hmid 25000 24000 (by norm_num) (by norm_num) (by norm_num)
  exact ⟨h0 10000 20000 (by norm_num), hm.1, hm.2.1,
    hhigh 100000 30000 (by norm_num) (by norm_num), hcap 0 1000 (by norm_num)⟩

/-- C4: long-term capital gains stack on top of ordinary income: combined
income at or below 94,050 gives zero tax; gains lying entirely between the
94,050 and 583,750 thresholds are taxed at exactly 15 percent; ordinary income
at or above 583,750 taxes the gains at exactly 20 percent; and with the gains
fixed the tax is non-decreasing in ordinary income. -/
theorem ltcg_stacking_correct :
    (∀ gains ordinary : ℚ, 0 ≤ gains → ordinary + gains ≤ 94050 →
      ltcg_tax gains ordinary = 0) ∧
    (∀ gains ordinary : ℚ, 0 ≤ gains → 94050 ≤ ordinary →
      ordinary + gains ≤ 583750 → ltcg_tax gains ordinary = (15/100) * gains) ∧
    (∀ gains ordinary : ℚ, 0 ≤ gains → 583750 ≤ ordinary →
      ltcg_tax gains ordinary = (20/100) * gains) ∧
    (∀ gains o1 o2 : ℚ, 0 ≤ gains → o1 ≤ o2 →
      ltcg_tax gains o1 ≤ ltcg_tax gains o2) :=
  ⟨fun _ _ hg h => ltcg_tax_zero_band hg h,
   fun _ _ hg h1 h2 => ltcg_tax_fifteen_band hg h1 h2,
   fun _ _ hg h => ltcg_tax_twenty_band hg h,
   fun _ _ _ hg h => ltcg_tax_mono_in_ordinary hg h⟩

theorem patternDuration_append (l1 l2 : List CycleEntry) :
    patternDuration (l1 ++ l2) = patternDuration l1 + patternDuration l2 := by
  simp [patternDuration]

/-- C5: the lookup builder returns exactly one `MarketAssumptions` per year;
with no spec every year gets the defaults; a timeline period's assumptions
populate exactly its inclusive year range relative to the current year and
uncovered years get the defaults; a cycle lays its entries out sequentially by
duration, restarts from entry 0 on exhaustion when the repeat flag is set, and
reverts to the defaults after one pass otherwise. -/
theorem build_lookup_correct :
    (∀ (years : ℕ) (cy : ℤ) (spec? : Option MarketPeriodSpec)
      (dflt : MarketAssumptions),
      (build_period_assumptions_lookup years cy spec? dflt).length = years) ∧
    (∀ (years : ℕ) (cy : ℤ) (spec? : Option MarketPeriodSpec)
      (dflt d0 : MarketAssumptions) (y : ℕ), y < years →
      (build_period_assumptions_lookup years cy spec? dflt).getD y d0 =
        lookupYear cy spec? dflt y) ∧
    (∀ (cy : ℤ) (dflt : MarketAssumptions) (y : ℕ),
      lookupYear cy none dflt y = dflt) ∧
    (∀ (cy : ℤ) (periods : List TimelinePeriod) (dflt : MarketAssumptions)
      (y : ℕ) (p : TimelinePeriod), p ∈ periods → coversYear cy p y = true →
      (∀ q ∈ periods, coversYear cy q y = true → q = p) →
      lookupYear cy (some (.timeline periods)) dflt y = p.assumptions) ∧
    (∀ (cy : ℤ) (periods : List TimelinePeriod) (dflt : MarketAssumptions)
      (y : ℕ), (∀ p ∈ periods, coversYear cy p y = false) →
      lookupYear cy (some (.timeline periods)) dflt y = dflt) ∧
    (∀ (cy : ℤ) (pre : List CycleEntry) (e : CycleEntry) (post : List CycleEntry)
      (dflt : MarketAssumptions) (rep : Bool) (k : ℕ), k < e.duration →
      lookupYear cy (some (.cycle (pre ++ e :: post) rep)) dflt
        (patternDuration pre + k) = e.assumptions) ∧
    (∀ (cy : ℤ) (pattern : List CycleEntry) (dflt : MarketAssumptions) (y : ℕ),
      lookupYear cy (some (.cycle pattern true)) dflt (y + patternDuration pattern) =
        lookupYear cy (some (.cycle pattern true)) dflt y) ∧
    (∀ (cy : ℤ) (pattern : List CycleEntry) (dflt : MarketAssumptions) (y : ℕ),
      patternDuration pattern ≤ y →
      lookupYear cy (some (.cycle pattern false)) dflt y = dflt) := by
  refine ⟨?_, ?_, ?_, ?_, ?_, ?_, ?_, ?_⟩
  · intro years cy spec? dflt
    simp [build_period_assumptions_lookup]
  · intro years cy spec? dflt d0 y hy
    simp [build_period_assumptions_lookup, List.getD_eq_getElem?_getD,
      List.getElem?_map, List.getElem?_range hy]
  · intro cy dflt y
    rfl
  · intro cy periods dflt y p hp hcov huniq
    simp only [lookupYear]
    rw [find?_unique_cover hp hcov huniq]
  · intro cy periods dflt y h
    simp only [lookupYear]
    rw [List.find?_eq_none.mpr (fun p hp => by simp [h p hp])]
  · intro cy pre e post dflt rep k hk
    have hlt : patternDuration pre + k < patternDuration (pre ++ e :: post) := by
      rw [patternDuration_append]
      have : patternDuration (e :: post) = e.duration + patternDuration post := by
        simp [patternDuration]
      omega
    cases rep
    · exact cycleLayout_getD hk dflt
    · show (cycleLayout (pre ++ e :: post)).getD
        ((patternDuration pre + k) % (cycleLayout (pre ++ e :: post)).length) dflt =
          e.assumptions
      rw [cycleLayout_length, Nat.mod_eq_of_lt hlt]
      exact cycleLayout_getD hk dflt
  · intro cy pattern dflt y
    show (cycleLayout pattern).getD
        ((y + patternDuration pattern) % (cycleLayout pattern).length) dflt =
      (cycleLayout pattern).getD (y % (cycleLayout pattern).length) dflt
    rw [cycleLayout_length, Nat.add_mod_right]
  · intro cy pattern dflt y hy
    show (cycleLayout pattern).getD y dflt = dflt
    exact List.getD_eq_default _ _ (by rw [cycleLayout_length]; exact hy)

/-- Witness for C5: a covered timeline year, a cycle year past a non-repeating
pattern, and the per-year lookup of the defaults-only build, all at concrete
inputs. -/
theorem build_lookup_correct_witness :
    lookupYear 2024 (some (.timeline [⟨2024, 2026, { stock_return_mean := 18/100 }⟩]))
      {} 1 = { stock_return_mean := 18/100 } ∧
    lookupYear 2024 (some (.cycle [⟨3, { stock_return_mean := 18/100 }⟩] false)) {} 7
      = ({} : MarketAssumptions) ∧
    (build_period_assumptions_lookup 10 2024 none {}).getD 3 {} =
      lookupYear 2024 none {} 3 := by
  refine ⟨build_lookup_correct.2.2.2.1 2024 _ {} 1
      ⟨2024, 2026, { stock_return_mean := 18/100 }⟩ (by simp) (by decide) ?_,
    build_lookup_correct.2.2.2.2.2.2.2 2024 _ {} 7 (by norm_num [patternDuration]),
    build_lookup_correct.2.1 10 2024 none {} {} 3 (by norm_num)⟩
  intro q hq _
  simpa using hq

/-- Low-return assumptions from the repository's zero-warnings validation
test. -/
def lowReturnAssumptions : MarketAssumptions where
  stock_return_mean := 2/100
  stock_return_std := 22/100
  bond_return_mean := 4/100
  bond_return_std := 6/100
  inflation_mean := 15/1000
  inflation_std := 1/100

/-- Ordinary-return assumptions from the repository's zero-warnings
validation test. -/
def ordinaryReturnAssumptions : MarketAssumptions where
  stock_return_mean := 10/100
  stock_return_std := 18/100
  bond_return_mean := 4/100
  bond_return_std := 6/100
  inflation_mean := 3/100
  inflation_std := 1/100

/-- The two-period 30-year timeline from the repository's own
zero-warnings validation test: years 2024 to 2026 with low returns, then
2027 to 2035 with ordinary returns. -/
def reasonablePeriods : List TimelinePeriod :=
  [⟨2024, 2026, lowReturnAssumptions⟩, ⟨2027, 2035, ordinaryReturnAssumptions⟩]

/-- C6 counterexample: in the repository's zero-warnings test the two periods
cover only 2024 to 2035 of a 30-year horizon starting 2024, so year index 12
(calendar 2036) is covered by no period, yet validation returns no warnings at
all, in particular no gap warning. -/
theorem validate_trailing_gap_unflagged :
    validate_market_periods 30 (some (.timeline reasonablePeriods)) = [] ∧
    (12 : ℕ) < 30 ∧
    (∀ p ∈ reasonablePeriods, coversYear 2024 p 12 = false) := by
  refine ⟨?_, by norm_num, ?_⟩
  · norm_num [validate_market_periods, reasonablePeriods, timelineDuration,
      lowReturnAssumptions, ordinaryReturnAssumptions, hasTimelineGap,
      List.any_cons, List.any_nil]
  · intro p hp
    fin_cases hp <;> decide

/-- C6 amended: validation emits a warning mentioning recession for a
low-return period longer than 5 years, one mentioning bull market for a
high-return period longer than 15 years, a dominance warning when one timeline
period or one cycle pattern entry covers at least 80 percent of the horizon, a
gap warning for uncovered years lying between consecutive timeline periods
(trailing uncovered years after the last period are not flagged), and a
short-cycle warning when a cycle's entries average under 2 years; the
repository's well-formed 30-year two-period timeline yields the empty list. -/
theorem validate_warnings_advisory :
    (∀ (years : ℕ) (periods : List TimelinePeriod) (p : TimelinePeriod),
      p ∈ periods → 5 < timelineDuration p →
      p.assumptions.stock_return_mean < 5/100 →
      ∃ w ∈ validate_market_periods years (some (.timeline periods)),
        "recession".toList <:+: w.toList) ∧
    (∀ (years : ℕ) (periods : List TimelinePeriod) (p : TimelinePeriod),
      p ∈ periods → 15 < timelineDuration p →
      15/100 < p.assumptions.stock_return_mean →
      ∃ w ∈ validate_market_periods years (some (.timeline periods)),
        "bull market".toList <:+: w.toList) ∧
    (∀ (years : ℕ) (periods : List TimelinePeriod) (p : TimelinePeriod),
      p ∈ periods → 4 * (years : ℤ) ≤ 5 * timelineDuration p →
      dominanceMsg ∈ validate_market_periods years (some (.timeline periods))) ∧
    (∀ (years : ℕ) (pattern : List CycleEntry) (rep : Bool) (e : CycleEntry),
      e ∈ pattern → 4 * years ≤ 5 * e.duration →
      dominanceMsg ∈ validate_market_periods years (some (.cycle pattern rep))) ∧
    (∀ (years : ℕ) (periods : List TimelinePeriod), hasTimelineGap periods = true →
      gapMsg ∈ validate_market_periods years (some (.timeline periods))) ∧
    (∀ (years : ℕ) (pattern : List CycleEntry) (rep : Bool), pattern ≠ [] →
      patternDuration pattern < 2 * pattern.length →
      shortCycleMsg ∈ validate_market_periods years (some (.cycle pattern rep))) ∧
    validate_market_periods 30 (some (.timeline reasonablePeriods)) = [] := by
  refine ⟨?_, ?_, ?_, ?_, ?_, ?_, ?_⟩
  · intro years periods p hp hdur hmean
    refine ⟨recessionMsg, ?_, by decide⟩
    have hany : periods.any (fun q => decide (5 < timelineDuration q) &&
        decide (q.assumptions.stock_return_mean < 5/100)) = true :=
      List.any_eq_true.mpr ⟨p, hp, by simp [hdur, hmean]⟩
    simp [validate_market_periods, hany]
  · intro years periods p hp hdur hmean
    refine ⟨bullMsg, ?_, by decide⟩
    have hany : periods.any (fun q => decide (15 < timelineDuration q) &&
        decide (15/100 < q.assumptions.stock_return_mean)) = true :=
      List.any_eq_true.mpr ⟨p, hp, by simp [hdur, hmean]⟩
    simp [validate_market_periods, hany]
  · intro years periods p hp hdom
    have hany : periods.any (fun q =>
        decide (4 * (years : ℤ) ≤ 5 * timelineDuration q)) = true :=
      List.any_eq_true.mpr ⟨p, hp, by simp [hdom]⟩
    simp [validate_market_periods, hany]
  · intro years pattern rep e he hdom
    have hany : pattern.any (fun q =>
        decide (4 * years ≤ 5 * q.duration)) = true :=
      List.any_eq_true.mpr ⟨e, he, by simp [hdom]⟩
    simp [validate_market_periods, hany]
  · intro years periods hgap
    simp [validate_market_periods, hgap]
  · intro years pattern rep hne hshort
    simp [validate_market_periods, hne, hshort]
  · norm_num [validate_market_periods, reasonablePeriods, timelineDuration,
      lowReturnAssumptions, ordinaryReturnAssumptions, hasTimelineGap,
      List.any_cons, List.any_nil]

/-- Witness for C6: the amended theorem applied to the repository's prolonged
recession test period and to a one-year two-entry cycle. -/
theorem validate_warnings_advisory_witness :
    (∃ w ∈ validate_market_periods 30
        (some (.timeline [⟨2024, 2030, lowReturnAssumptions⟩])),
      "recession".toList <:+: w.toList) ∧
    shortCycleMsg ∈ validate_market_periods 30
      (some (.cycle [⟨1, {}⟩, ⟨1, {}⟩] true)) := by
  refine ⟨validate_warnings_advisory.1 30 _ ⟨2024, 2030, lowReturnAssumptions⟩
      (by simp) (by norm_num [timelineDuration])
      (by norm_num [lowReturnAssumptions]),
    validate_warnings_advisory.2.2.2.2.2.1 30 _ true (by simp)
      (by norm_num [patternDuration])⟩

/-- C7: a simulation count below 100 or above 50,000 is rejected by the
validator with a `ValueError` and the `/api/analysis` endpoint answers HTTP
400 without invoking the core; every count between 100 and 50,000 passes
validation, and whenever the core is invoked its path count is in range. -/
theorem simulations_bounds_enforced :
    (∀ v : ℤ, v < 100 ∨ 50000 < v → ∀ pf dn : Bool,
      run_analysis_route v pf dn =
        .badRequest "Simulations must be between 100 and 50,000" ∧
      validate_simulations v =
        .error "Simulations must be between 100 and 50,000") ∧
    (∀ v : ℤ, 100 ≤ v → v ≤ 50000 → validate_simulations v = .ok v) ∧
    (∀ (v : ℤ) (pf dn : Bool) (s : ℤ),
      run_analysis_route v pf dn = .coreInvoked s → 100 ≤ s ∧ s ≤ 50000) := by
  refine ⟨?_, ?_, ?_⟩
  · intro v hv pf dn
    have hval : validate_simulations v =
        .error "Simulations must be between 100 and 50,000" := by
      unfold validate_simulations
      rw [if_pos hv]
    refine ⟨?_, hval⟩
    unfold run_analysis_route
    rw [hval]
  · intro v h1 h2
    unfold validate_simulations
    rw [if_neg (by omega)]
  · intro v pf dn s h
    unfold run_analysis_route validate_simulations at h
    by_cases hv : v < 100 ∨ 50000 < v
    · rw [if_pos hv] at h
      simp at h
    · rw [if_neg hv] at h
      cases pf <;> cases dn <;> simp_all

/-- Witness for C7: rejection at 50 paths and acceptance at 10,000 paths. -/
theorem simulations_bounds_enforced_witness :
    run_analysis_route 50 true true =
      .badRequest "Simulations must be between 100 and 50,000" ∧
    validate_simulations 10000 = .ok 10000 :=
  ⟨(simulations_bounds_enforced.1 50 (by norm_num) true true).1,
    simulations_bounds_enforced.2.1 10000 (by norm_num) (by norm_num)⟩

/-- C8: evidence that the request schema of `src/routes/analysis.py` declares
only the profile name and simulation count, and that `run_analysis` calls
`monte_carlo_simulation` without the market-period, market-profile or
spending-model arguments its own tests and the spec require. -/
theorem schema_missing_request_fields :
    analysisRequestSchemaFields = ["profile_name", "simulations"] ∧
    "spending_model" ∉ analysisRequestSchemaFields ∧
    "market_profile" ∉ analysisRequestSchemaFields ∧
    "market_periods" ∉ analysisRequestSchemaFields ∧
    "spending_model" ∈ testedRequestFields ∧
    "market_profile" ∈ testedRequestFields ∧
    "market_periods" ∈ testedRequestFields ∧
    "market_periods" ∉ monteCarloCallKeywords ∧
    "spending_model" ∉ monteCarloCallKeywords := by
  decide

/-- C9: the application builds `Person` two incompatible ways: `run_analysis`
uses exactly the canonical birth-date keyword set while the Social Security
and Roth endpoints use a disjoint scalar keyword set (and pass `RetirementModel`
three arguments instead of one), so under the canonical schema those two
endpoints always fail at `Person` construction and answer with an error
response, never an analysis result. -/
theorem dual_person_schema_inconsistent :
    (∀ k ∈ scalarPersonKeywords, k ∉ runAnalysisPersonKeywords) ∧
    mkPerson runAnalysisPersonKeywords = .ok () ∧
    mkPerson scalarPersonKeywords =
      .error "unexpected keyword argument in Person constructor" ∧
    (∀ pf dn : Bool, analyze_social_security_route pf dn ≠ .analysis) ∧
    (∀ pf dn : Bool, analyze_roth_conversion_route pf dn ≠ .analysis) ∧
    analyze_social_security_route true true = .errorResponse 500 ∧
    analyze_roth_conversion_route true true = .errorResponse 500 ∧
    runAnalysisModelArgCount ≠ scalarModelArgCount := by
  refine ⟨?_, by rfl, by rfl, ?_, ?_, by decide, by decide, by decide⟩
  · intro k hk
    fin_cases hk <;> decide
  · intro pf dn
    cases pf <;> cases dn <;> decide
  · intro pf dn
    cases pf <;> cases dn <;> decide

/-- Witness for C9: the keyword disjointness applied to the scalar keyword
birth_year. -/
theorem dual_person_schema_inconsistent_witness :
    "birth_year" ∉ runAnalysisPersonKeywords :=
  dual_person_schema_inconsistent.1 "birth_year" (by decide)

/-- C10: evidence that `run_analysis` divides the stored monthly Social
Security benefit by 12 where its own comment and the pension conversion
multiply by 12: a 2,400 monthly benefit becomes 200, not the 28,800 annual
amount the claim states. -/
theorem social_security_monthly_division :
    person1_social_security 2400 = 200 ∧
    person2_social_security 2400 = 200 ∧
    profile_pension_annual 2400 = 28800 ∧
    person1_social_security 2400 ≠ 12 * 2400 := by
  norm_num [person1_social_security, person2_social_security, profile_pension_annual]

/-- Witness for C4: the three bands and the stacking monotonicity at the
repository's own test inputs. -/
theorem ltcg_stacking_correct_witness :
    ltcg_tax 50000 40000 = 0 ∧
    ltcg_tax 50000 200000 = (15/100) * 50000 ∧
    ltcg_tax 100000 600000 = (20/100) * 100000 ∧
    ltcg_tax 50000 40000 ≤ ltcg_tax 50000 600000 := by
  obtain ⟨h0, h15, h20, hmono⟩ := ltcg_stacking_correct
  exact ⟨h0 50000 40000 (by norm_num) (by norm_num),
    h15 50000 200000 (by norm_num) (by norm_num) (by norm_num),
    h20 100000 600000 (by norm_num) (by norm_num),
    hmono 50000 40000 600000 (by norm_num) (by norm_num)⟩

end Panrps
